import Mathlib

/-
  Verification development for the code-school quiz backend.

  The Python handlers in src/api (test.py, question.py, topic.py,
  analytics.py) are shallowly embedded as pure Lean functions over an
  explicit database state.  Machine floats are modelled as exact
  rationals; datetimes are modelled as integers (in days for the
  analytics period filters); Python truthiness of optional values is
  modelled explicitly.
-/

namespace CodeSchool

/-- Python truthiness of an optional string: None and the empty string are falsy. -/
def pyTruthyStr : Option String → Bool
  | none => false
  | some s => !(s == "")

/-- Python truthiness of an optional natural-number id: None and 0 are falsy. -/
def pyTruthyNat : Option Nat → Bool
  | none => false
  | some n => !(n == 0)

/-- Python truthiness of an optional integer: None and 0 are falsy. -/
def pyTruthyInt : Option Int → Bool
  | none => false
  | some n => !(n == 0)

/-- Python int() truncates toward zero. -/
def pyInt (q : ℚ) : ℤ := if 0 ≤ q then ⌊q⌋ else -⌊-q⌋

/-- Python str.lower modelled per character. -/
def pyLower (s : String) : String := String.mk (s.data.map Char.toLower)

/-- Round to the nearest integer, ties to even, as Python round does. -/
def roundHalfEven (q : ℚ) : ℤ :=
  let f := ⌊q⌋
  let r := q - (f : ℚ)
  if r < 1/2 then f
  else if 1/2 < r then f + 1
  else if f % 2 = 0 then f else f + 1

/-- Python round(x, 2) idealised on exact rationals. -/
def pyRound2 (q : ℚ) : ℚ := (roundHalfEven (q * 100) : ℚ) / 100

/-- Row of the topics table (src/models/topic.py). -/
structure Topic where
  id : Nat
  name : String
  description : Option String
  created_at : Int
deriving Repr, DecidableEq

/-- Row of the questions table (src/models/question.py).  The question type is
stored as one of the strings multiple_choice, true_false, open_ended. -/
structure Question where
  id : Nat
  topic_id : Nat
  question_text : String
  question_type : String
  difficulty : Int
  correct_answer : Option String
deriving Repr, DecidableEq

/-- Row of the options table (src/models/option.py; the source model is named
Option, which clashes with the Lean core type). -/
structure AnswerOption where
  id : Nat
  question_id : Nat
  option_text : String
  is_correct : Bool
deriving Repr, DecidableEq

/-- Row of the tests table (src/models/test.py). -/
structure Test where
  id : Nat
  user_id : Nat
  topic_id : Nat
  started_at : Int
  completed_at : Option Int
  score : Option ℚ
deriving Repr, DecidableEq

/-- Row of the user_responses table (src/models/user_response.py). -/
structure UserResponse where
  id : Nat
  test_id : Nat
  question_id : Nat
  option_id : Option Nat
  response_text : Option String
  is_correct : Bool
  submitted_at : Int
deriving Repr, DecidableEq

/-- The relational store, with autoincrement counters per table. -/
structure DB where
  topics : List Topic
  questions : List Question
  options : List AnswerOption
  tests : List Test
  user_responses : List UserResponse
  next_topic_id : Nat
  next_question_id : Nat
  next_option_id : Nat
  next_test_id : Nat
  next_response_id : Nat
deriving Repr, DecidableEq

def emptyDB : DB :=
  { topics := [], questions := [], options := [], tests := [], user_responses := []
    next_topic_id := 1, next_question_id := 1, next_option_id := 1
    next_test_id := 1, next_response_id := 1 }

/-- HTTP errors raised by the handlers (HTTPException status plus detail). -/
inductive ApiError where
  | notFound (detail : String)
  | badRequest (detail : String)
  | forbidden (detail : String)
deriving Repr, DecidableEq

def DB.findTopic (db : DB) (topic_id : Nat) : Option Topic :=
  db.topics.find? (fun t => t.id == topic_id)

def DB.findQuestion (db : DB) (question_id : Nat) : Option Question :=
  db.questions.find? (fun q => q.id == question_id)

def DB.findTest (db : DB) (test_id : Nat) : Option Test :=
  db.tests.find? (fun t => t.id == test_id)

/-- Request body of POST /topics/ (schemas.TopicCreate). -/
structure TopicCreate where
  name : String
  description : Option String
deriving Repr, DecidableEq

/-- Request body of PUT /topics/{id} (schemas.TopicUpdate). -/
structure TopicUpdate where
  name : Option String
  description : Option String
deriving Repr, DecidableEq

/-- Request body of POST /questions/ (schemas.QuestionCreate). -/
structure QuestionCreate where
  topic_id : Nat
  question_text : String
  question_type : String
  difficulty : Int
  correct_answer : Option String
deriving Repr, DecidableEq

/-- Request body of PUT /questions/{id} (schemas.QuestionUpdate). -/
structure QuestionUpdate where
  topic_id : Option Nat
  question_text : Option String
  question_type : Option String
  difficulty : Option Int
  correct_answer : Option String
deriving Repr, DecidableEq

/-- Request body of POST /questions/{id}/options (schemas.OptionCreate). -/
structure OptionCreate where
  option_text : String
  is_correct : Bool
deriving Repr, DecidableEq

/-- Request body of POST /tests/{id}/responses (schemas.UserResponseCreate). -/
structure UserResponseCreate where
  question_id : Nat
  option_id : Option Nat
  response_text : Option String
deriving Repr, DecidableEq

/-- Handler start_test, POST /tests/ (src/api/test.py lines 29-52).  Checks the
topic exists, then inserts a Test with completed_at and score both null. -/
def start_test (db : DB) (current_user : Nat) (topic_id : Nat) (now : Int) :
    Except ApiError (DB × Test) :=
  match db.findTopic topic_id with
  | none => .error (.notFound "Topic not found")
  | some _ =>
      let test_data : Test :=
        { id := db.next_test_id, user_id := current_user, topic_id := topic_id
          started_at := now, completed_at := none, score := none }
      .ok ({ db with
             tests := db.tests ++ [test_data]
             next_test_id := db.next_test_id + 1 }, test_data)

/-- Grading step of submit_response (src/api/test.py lines 91-115).  For an
open-ended question Python evaluates
response.response_text and question.correct_answer by truthiness (None or
empty string are falsy) and compares lower-cased texts; otherwise a truthy
option_id is looked up among the options of this question (404 when absent)
and its is_correct flag is used, while a falsy option_id leaves
is_correct = False. -/
def grade_response (db : DB) (question : Question) (response : UserResponseCreate) :
    Except ApiError Bool :=
  if question.question_type == "open_ended" then
    .ok (if pyTruthyStr response.response_text && pyTruthyStr question.correct_answer then
           pyLower (response.response_text.getD "") == pyLower (question.correct_answer.getD "")
         else false)
  else
    if pyTruthyNat response.option_id then
      match db.options.find? (fun o =>
          o.id == response.option_id.getD 0 && o.question_id == question.id) with
      | none => .error (.notFound "Option not found or does not belong to this question")
      | some o => .ok o.is_correct
    else .ok false

/-- Insert a freshly graded UserResponse row (src/api/test.py lines 117-129). -/
def pushResponse (db : DB) (r : UserResponse) : DB :=
  { db with
      user_responses := db.user_responses ++ [r]
      next_response_id := db.next_response_id + 1 }

/-- The UserResponse row built by submit_response (src/api/test.py
lines 118-125). -/
def mkResp (db : DB) (test_id : Nat) (response : UserResponseCreate) (is_correct : Bool)
    (now : Int) : UserResponse :=
  { id := db.next_response_id, test_id := test_id
    question_id := response.question_id
    option_id := response.option_id
    response_text := response.response_text
    is_correct := is_correct, submitted_at := now }

/-- Handler submit_response, POST /tests/{id}/responses (src/api/test.py
lines 55-131): test must exist, belong to the caller and be uncompleted, the
question must exist; the response is graded and inserted. -/
def submit_response (db : DB) (current_user : Nat) (test_id : Nat)
    (response : UserResponseCreate) (now : Int) :
    Except ApiError (DB × UserResponse) :=
  match db.findTest test_id with
  | none => .error (.notFound "Test not found")
  | some test =>
    if test.user_id ≠ current_user then
      .error (.forbidden "Not authorized to access this test")
    else if test.completed_at.isSome then
      .error (.badRequest "Test is already completed")
    else
      match db.findQuestion response.question_id with
      | none => .error (.notFound "Question not found")
      | some question =>
        match grade_response db question response with
        | .error e => .error e
        | .ok is_correct =>
          let user_response := mkResp db test_id response is_correct now
          .ok (pushResponse db user_response, user_response)

/-- The responses recorded for a test (the query at src/api/test.py line 158). -/
def responsesFor (db : DB) (test_id : Nat) : List UserResponse :=
  db.user_responses.filter (fun r => r.test_id == test_id)

/-- Count of a test's responses whose is_correct flag is set
(src/api/test.py line 166). -/
def correct_count (db : DB) (test_id : Nat) : Nat :=
  ((responsesFor db test_id).filter (fun r => r.is_correct)).length

/-- Total count of a test's responses (src/api/test.py line 167). -/
def total_count (db : DB) (test_id : Nat) : Nat :=
  (responsesFor db test_id).length

/-- Update the row of the given test id in place, as the ORM commit does. -/
def replaceTest (db : DB) (test_id : Nat) (t' : Test) : DB :=
  { db with tests := db.tests.map (fun t => if t.id == test_id then t' else t) }

/-- A test after finalization: completion timestamp and score set together
(src/api/test.py lines 170-172). -/
def scored (t : Test) (now : Int) (s : ℚ) : Test :=
  { t with completed_at := some now, score := some s }

/-- Handler complete_test, PUT /tests/{id}/complete (src/api/test.py
lines 134-177): test must exist, belong to the caller, be uncompleted and
have at least one response; the score (correct/total)*100 is stored, without
any rounding, together with the completion timestamp. -/
def complete_test (db : DB) (current_user : Nat) (test_id : Nat) (now : Int) :
    Except ApiError (DB × Test) :=
  match db.findTest test_id with
  | none => .error (.notFound "Test not found")
  | some test =>
    if test.user_id ≠ current_user then
      .error (.forbidden "Not authorized to access this test")
    else if test.completed_at.isSome then
      .error (.badRequest "Test is already completed")
    else
      let responses := responsesFor db test_id
      if responses.isEmpty then
        .error (.badRequest "No responses found for this test")
      else
        let score : ℚ :=
          if total_count db test_id > 0 then
            ((correct_count db test_id : ℚ) / (total_count db test_id : ℚ)) * 100
          else 0
        let test' := scored test now score
        .ok (replaceTest db test_id test', test')

/-- Valid question types (src/api/question.py line 41). -/
def valid_types : List String := ["multiple_choice", "true_false", "open_ended"]

/-- Handler create_question, POST /questions/ (src/api/question.py
lines 30-67).  The correct_answer is stored only for open_ended questions;
for any other type it is dropped and null is stored (line 60). -/
def create_question (db : DB) (question : QuestionCreate) :
    Except ApiError (DB × Question) :=
  match db.findTopic question.topic_id with
  | none => .error (.notFound "Topic not found")
  | some _ =>
    if !(valid_types.contains question.question_type) then
      .error (.badRequest "Question type must be one of: multiple_choice, true_false, open_ended")
    else if question.difficulty < 1 || question.difficulty > 5 then
      .error (.badRequest "Difficulty must be between 1 and 5")
    else
      let question_data : Question :=
        { id := db.next_question_id, topic_id := question.topic_id
          question_text := question.question_text
          question_type := question.question_type
          difficulty := question.difficulty
          correct_answer :=
            if question.question_type == "open_ended" then question.correct_answer
            else none }
      .ok ({ db with
             questions := db.questions ++ [question_data]
             next_question_id := db.next_question_id + 1 }, question_data)

/-- Handler create_option, POST /questions/{id}/options (src/api/question.py
lines 70-102). -/
def create_option (db : DB) (question_id : Nat) (option : OptionCreate) :
    Except ApiError (DB × AnswerOption) :=
  match db.findQuestion question_id with
  | none => .error (.notFound "Question not found")
  | some question =>
    if question.question_type == "open_ended" then
      .error (.badRequest "Cannot add options to open-ended questions")
    else
      let option_data : AnswerOption :=
        { id := db.next_option_id, question_id := question_id
          option_text := option.option_text, is_correct := option.is_correct }
      .ok ({ db with
             options := db.options ++ [option_data]
             next_option_id := db.next_option_id + 1 }, option_data)

/-- Update the row of the given question id in place, as the ORM commit does. -/
def replaceQuestion (db : DB) (question_id : Nat) (q' : Question) : DB :=
  { db with questions := db.questions.map (fun q => if q.id == question_id then q' else q) }

/-- Topic step of update_question (src/api/question.py lines 151-159): a
truthy topic_id is checked to exist and set. -/
def apply_topic_update (db : DB) (q : Question) (question_update : QuestionUpdate) :
    Except ApiError Question :=
  if pyTruthyNat question_update.topic_id then
    match db.findTopic (question_update.topic_id.getD 0) with
    | none => .error (.notFound "Topic not found")
    | some _ => .ok { q with topic_id := question_update.topic_id.getD 0 }
  else .ok q

/-- Text step of update_question (src/api/question.py lines 161-163). -/
def apply_text_update (q : Question) (question_update : QuestionUpdate) : Question :=
  if pyTruthyStr question_update.question_text then
    { q with question_text := question_update.question_text.getD "" }
  else q

/-- Type step of update_question (src/api/question.py lines 165-172): a
truthy question_type is validated and set. -/
def apply_type_update (q : Question) (question_update : QuestionUpdate) :
    Except ApiError Question :=
  if pyTruthyStr question_update.question_type then
    if !(valid_types.contains (question_update.question_type.getD "")) then
      .error (.badRequest "Question type must be one of: multiple_choice, true_false, open_ended")
    else .ok { q with question_type := question_update.question_type.getD "" }
  else .ok q

/-- Difficulty step of update_question (src/api/question.py lines 174-180). -/
def apply_difficulty_update (q : Question) (question_update : QuestionUpdate) :
    Except ApiError Question :=
  if pyTruthyInt question_update.difficulty then
    if question_update.difficulty.getD 0 < 1 || question_update.difficulty.getD 0 > 5 then
      .error (.badRequest "Difficulty must be between 1 and 5")
    else .ok { q with difficulty := question_update.difficulty.getD 0 }
  else .ok q

/-- Correct-answer step of update_question (src/api/question.py
lines 182-189): a non-null correct_answer is stored when the question's
current - possibly just updated - type is open_ended, and rejected
otherwise. -/
def apply_answer_update (q : Question) (question_update : QuestionUpdate) :
    Except ApiError Question :=
  if question_update.correct_answer.isSome then
    if q.question_type == "open_ended" then
      .ok { q with correct_answer := question_update.correct_answer }
    else .error (.badRequest "Correct answer can only be set for open-ended questions")
  else .ok q

/-- Handler update_question, PUT /questions/{id} (src/api/question.py
lines 136-194), as the sequence of its field-update steps; a raise aborts the
request before the commit, so the store is unchanged on error. -/
def update_question (db : DB) (question_id : Nat) (question_update : QuestionUpdate) :
    Except ApiError (DB × Question) :=
  match db.findQuestion question_id with
  | none => .error (.notFound "Question not found")
  | some q0 =>
    match apply_topic_update db q0 question_update with
    | .error e => .error e
    | .ok q1 =>
      match apply_type_update (apply_text_update q1 question_update) question_update with
      | .error e => .error e
      | .ok q3 =>
        match apply_difficulty_update q3 question_update with
        | .error e => .error e
        | .ok q4 =>
          match apply_answer_update q4 question_update with
          | .error e => .error e
          | .ok q5 => .ok (replaceQuestion db question_id q5, q5)

/-- Handler delete_question, DELETE /questions/{id} (src/api/question.py
lines 197-211); associated options go with it per the handler's comment. -/
def delete_question (db : DB) (question_id : Nat) : Except ApiError DB :=
  match db.findQuestion question_id with
  | none => .error (.notFound "Question not found")
  | some _ =>
    .ok { db with
          questions := db.questions.filter (fun q => !(q.id == question_id))
          options := db.options.filter (fun o => !(o.question_id == question_id)) }

/-- Handler create_topic, POST /topics/ (src/api/topic.py lines 28-48). -/
def create_topic (db : DB) (topic : TopicCreate) (now : Int) :
    Except ApiError (DB × Topic) :=
  match db.topics.find? (fun t => t.name == topic.name) with
  | some _ => .error (.badRequest "Topic with this name already exists")
  | none =>
    let topic_data : Topic :=
      { id := db.next_topic_id, name := topic.name
        description := topic.description, created_at := now }
    .ok ({ db with
           topics := db.topics ++ [topic_data]
           next_topic_id := db.next_topic_id + 1 }, topic_data)

/-- Handler update_topic, PUT /topics/{id} (src/api/topic.py lines 71-103). -/
def update_topic (db : DB) (topic_id : Nat) (topic_update : TopicUpdate) :
    Except ApiError (DB × Topic) :=
  match db.topics.find? (fun t => t.id == topic_id) with
  | none => .error (.notFound "Topic not found")
  | some topic =>
    if pyTruthyStr topic_update.name && !(topic_update.name.getD "" == topic.name) &&
        (db.topics.find? (fun t2 => t2.name == topic_update.name.getD "")).isSome then
      .error (.badRequest "Topic with this name already exists")
    else
      let t1 := if pyTruthyStr topic_update.name then
          { topic with name := topic_update.name.getD "" } else topic
      let t2 := if pyTruthyStr topic_update.description then
          { t1 with description := topic_update.description } else t1
      .ok ({ db with topics := db.topics.map (fun t => if t.id == topic_id then t2 else t) }, t2)

/-- Handler delete_topic, DELETE /topics/{id} (src/api/topic.py lines 106-120). -/
def delete_topic (db : DB) (topic_id : Nat) : Except ApiError DB :=
  match db.topics.find? (fun t => t.id == topic_id) with
  | none => .error (.notFound "Topic not found")
  | some _ => .ok { db with topics := db.topics.filter (fun t => !(t.id == topic_id)) }

/-- One entry of recent_scores (schemas.ScoreRecord). -/
structure ScoreRecord where
  date : Int
  score : ℚ
deriving Repr, DecidableEq

/-- Response of GET /analytics/performance/user (schemas.UserPerformanceResponse). -/
structure UserPerformance where
  total_tests : Nat
  average_score : ℚ
  best_score : ℚ
  worst_score : ℚ
  recent_scores : List ScoreRecord
  completion_rate : ℚ
deriving Repr, DecidableEq

/-- Insert into a list kept in descending key order. -/
def insertDesc (key : Test → Int) (x : Test) : List Test → List Test
  | [] => [x]
  | y :: ys => if key y ≤ key x then x :: y :: ys else y :: insertDesc key x ys

/-- Sort a list of tests in descending key order (the order_by desc query). -/
def sortByDesc (key : Test → Int) : List Test → List Test
  | [] => []
  | x :: xs => insertDesc key x (sortByDesc key xs)

/-- The caller's completed tests restricted to the selected period
(src/api/analytics.py lines 36-54).  Timestamps are modelled in days, so the
week, month and year windows reach back 7, 30 and 365 from now. -/
def completed_tests_in_period (db : DB) (user : Nat) (period : String) (now : Int) :
    List Test :=
  let base := db.tests.filter (fun t => t.user_id == user && t.completed_at.isSome)
  if period == "week" then base.filter (fun t => decide (now - 7 ≤ t.completed_at.getD 0))
  else if period == "month" then base.filter (fun t => decide (now - 30 ≤ t.completed_at.getD 0))
  else if period == "year" then base.filter (fun t => decide (now - 365 ≤ t.completed_at.getD 0))
  else base

/-- Count of all tests the user has ever started, not filtered by the time
window (src/api/analytics.py line 77). -/
def all_tests_count (db : DB) (user : Nat) : Nat :=
  (db.tests.filter (fun t => t.user_id == user)).length

/-- Handler get_user_performance, GET /analytics/performance/user
(src/api/analytics.py lines 30-87).  With no completed test in the period a
record of zeroes with an empty recent_scores list is returned; otherwise
count, mean (rounded to 2 decimals), max, min, the 5 most recently completed
scores, and the completion rate (completed in the period over all tests ever
started, times 100, rounded to 2 decimals). -/
def get_user_performance (db : DB) (user : Nat) (period : String) (now : Int) :
    UserPerformance :=
  let tests := completed_tests_in_period db user period now
  if tests.isEmpty then
    { total_tests := 0, average_score := 0, best_score := 0, worst_score := 0
      recent_scores := [], completion_rate := 0 }
  else
    let total_tests := tests.length
    let scores := tests.map (fun t => t.score.getD 0)
    let average_score : ℚ :=
      if total_tests > 0 then (scores.foldl (· + ·) 0) / (total_tests : ℚ) else 0
    let best_score : ℚ := match scores with | [] => 0 | s :: rest => rest.foldl max s
    let worst_score : ℚ := match scores with | [] => 0 | s :: rest => rest.foldl min s
    let recent := (sortByDesc (fun t => t.completed_at.getD 0) tests).take 5
    let recent_scores := recent.map (fun t =>
      ({ date := t.completed_at.getD 0, score := t.score.getD 0 } : ScoreRecord))
    let completion_rate : ℚ :=
      if all_tests_count db user > 0 then
        ((total_tests : ℚ) / (all_tests_count db user : ℚ)) * 100
      else 0
    { total_tests := total_tests
      average_score := pyRound2 average_score
      best_score := best_score
      worst_score := worst_score
      recent_scores := recent_scores
      completion_rate := pyRound2 completion_rate }

/-- Per-question success rate of get_question_difficulty_analysis
(src/api/analytics.py line 166). -/
def success_rate (correct attempts : Nat) : ℚ :=
  if attempts > 0 then ((correct : ℚ) / (attempts : ℚ)) * 100 else 0

/-- Per-question perceived difficulty of get_question_difficulty_analysis
(src/api/analytics.py line 169): 5 - int((success_rate / 100) * 4). -/
def perceived_difficulty (sr : ℚ) : ℤ := 5 - pyInt (sr / 100 * 4)

/-- The reported success_rate field, rounded to 2 decimals
(src/api/analytics.py line 176). -/
def reported_success_rate (correct attempts : Nat) : ℚ :=
  pyRound2 (success_rate correct attempts)

/-- One mutating API request, used to reason about operation sequences. -/
inductive Op where
  | createTopic (topic : TopicCreate) (now : Int)
  | updateTopic (topic_id : Nat) (tu : TopicUpdate)
  | deleteTopic (topic_id : Nat)
  | createQuestion (q : QuestionCreate)
  | createOption (question_id : Nat) (o : OptionCreate)
  | updateQuestion (question_id : Nat) (qu : QuestionUpdate)
  | deleteQuestion (question_id : Nat)
  | startTest (user topic_id : Nat) (now : Int)
  | submitResponse (user test_id : Nat) (r : UserResponseCreate) (now : Int)
  | completeTest (user test_id : Nat) (now : Int)
deriving Repr, DecidableEq

/-- The store an operation leaves behind: a raised HTTPException aborts the
request before its commit, so the store is unchanged on error. -/
def applyExcept {α : Type} (db : DB) : Except ApiError (DB × α) → DB
  | .error _ => db
  | .ok (db', _) => db'

/-- Apply one API request to the store. -/
def applyOp (db : DB) : Op → DB
  | .createTopic tc now => applyExcept db (create_topic db tc now)
  | .updateTopic tid tu => applyExcept db (update_topic db tid tu)
  | .deleteTopic tid =>
      match delete_topic db tid with
      | .error _ => db
      | .ok db' => db'
  | .createQuestion qc => applyExcept db (create_question db qc)
  | .createOption qid oc => applyExcept db (create_option db qid oc)
  | .updateQuestion qid qu => applyExcept db (update_question db qid qu)
  | .deleteQuestion qid =>
      match delete_question db qid with
      | .error _ => db
      | .ok db' => db'
  | .startTest user tid now => applyExcept db (start_test db user tid now)
  | .submitResponse user tid r now => applyExcept db (submit_response db user tid r now)
  | .completeTest user tid now => applyExcept db (complete_test db user tid now)

/-- Apply a sequence of API requests. -/
def run (db : DB) (ops : List Op) : DB := ops.foldl applyOp db

/-- A store is reachable when some sequence of API requests builds it from
the empty store. -/
def Reachable (db : DB) : Prop := ∃ ops, run emptyDB ops = db

/-! Concrete fixtures used by counterexamples and witnesses. -/

def topicT : Topic := { id := 1, name := "T", description := none, created_at := 0 }

def t1 : Test :=
  { id := 1, user_id := 1, topic_id := 1, started_at := 0, completed_at := none, score := none }

def r1 : UserResponse :=
  { id := 1, test_id := 1, question_id := 1, option_id := none
    response_text := some "a", is_correct := true, submitted_at := 1 }

def r2 : UserResponse :=
  { id := 2, test_id := 1, question_id := 2, option_id := none
    response_text := some "b", is_correct := true, submitted_at := 2 }

def r3 : UserResponse :=
  { id := 3, test_id := 1, question_id := 3, option_id := none
    response_text := some "c", is_correct := false, submitted_at := 3 }

/-- A store holding one uncompleted test of user 1 with 3 responses, 2 correct. -/
def db1 : DB :=
  { topics := [topicT], questions := [], options := [], tests := [t1]
    user_responses := [r1, r2, r3]
    next_topic_id := 2, next_question_id := 1, next_option_id := 1
    next_test_id := 2, next_response_id := 4 }

/-- C1, counterexample: completing the test with 3 responses of which 2 are
correct stores the exact score 200/3 = 66.666...; the stored value is not the
2-decimal rounding 66.67, because complete_test never rounds. -/
theorem c1_counterexample :
    (complete_test db1 1 1 99).map (fun p => p.2.score) = .ok (some (200/3 : ℚ)) ∧
    ¬ ((200/3 : ℚ) = 6667/100) := by
  constructor
  · have h : complete_test db1 1 1 99 =
        .ok (replaceTest db1 1
              (scored t1 99 ((correct_count db1 1 : ℚ) / (total_count db1 1 : ℚ) * 100)),
             scored t1 99 ((correct_count db1 1 : ℚ) / (total_count db1 1 : ℚ) * 100)) := rfl
    rw [h, show correct_count db1 1 = 2 from rfl, show total_count db1 1 = 3 from rfl]
    simp only [Except.map, scored]
    norm_num
  · norm_num

/-- Modelled from the spec (claim C2), the refinement target for open-ended
grading: correct iff both the submitted text and the stored answer are
present (non-null and non-empty, matching the spec's missing-value clause and
Python truthiness) and equal under case-insensitive exact comparison. -/
def specOpenEndedCorrect : Option String → Option String → Bool
  | some t, some a => !(t == "") && !(a == "") && (pyLower t == pyLower a)
  | some _, none => false
  | none, _ => false

/-- C2: for every response submitted to an open-ended question, the stored
is_correct flag is exactly specOpenEndedCorrect applied to the submitted text
and the stored correct answer: true iff both are present and equal
case-insensitively, false whenever either is missing. -/
theorem c2_open_ended_grading (db : DB) (q : Question) (resp : UserResponseCreate)
    (h : q.question_type = "open_ended") :
    grade_response db q resp = .ok (specOpenEndedCorrect resp.response_text q.correct_answer) := by
  obtain ⟨qid, qtid, qtext, qtype, qdiff, qca⟩ := q
  obtain ⟨rqid, roid, rtext⟩ := resp
  simp only at h
  subst h
  cases rtext with
  | none => simp [grade_response, specOpenEndedCorrect, pyTruthyStr]
  | some t =>
    cases qca with
    | none => simp [grade_response, specOpenEndedCorrect, pyTruthyStr]
    | some a =>
      simp only [grade_response, specOpenEndedCorrect, pyTruthyStr, Option.getD]
      cases h1 : (t == "") <;> cases h2 : (a == "") <;>
        cases h3 : (pyLower t == pyLower a) <;> simp [h1, h2, h3]

def q2p : Question :=
  { id := 1, topic_id := 1, question_text := "Capital of France?"
    question_type := "open_ended", difficulty := 1, correct_answer := some "Paris" }

def r2a : UserResponseCreate :=
  { question_id := 1, option_id := none, response_text := some "paris" }

def r2b : UserResponseCreate :=
  { question_id := 1, option_id := none, response_text := some "Pariss" }

/-- C2, witness: with stored answer Paris, submitting paris grades correct and
submitting Pariss grades incorrect. -/
theorem c2_open_ended_grading_witness :
    grade_response emptyDB q2p r2a = .ok true ∧
    grade_response emptyDB q2p r2b = .ok false := by
  constructor
  · rw [c2_open_ended_grading emptyDB q2p r2a rfl,
        show specOpenEndedCorrect r2a.response_text q2p.correct_answer = true by decide]
  · rw [c2_open_ended_grading emptyDB q2p r2b rfl,
        show specOpenEndedCorrect r2b.response_text q2p.correct_answer = false by decide]

/-- C6: the per-question arithmetic of the difficulty analytics as the source
writes it: 4 attempts with 1 correct give success_rate 25.0 and perceived
difficulty 5 - int(0.25 * 4) = 4, full success gives 1 and zero success
gives 5.  The handler itself never returns these values: it applies the name
case, which src/api/analytics.py does not import, so every request to the
endpoint fails with a NameError. -/
theorem c6_difficulty_formula :
    success_rate 1 4 = 25 ∧
    reported_success_rate 1 4 = 25 ∧
    perceived_difficulty (success_rate 1 4) = 4 ∧
    perceived_difficulty (success_rate 4 4) = 1 ∧
    perceived_difficulty (success_rate 0 4) = 5 := by
  have h14 : success_rate 1 4 = 25 := by norm_num [success_rate]
  have h44 : success_rate 4 4 = 100 := by norm_num [success_rate]
  have h04 : success_rate 0 4 = 0 := by norm_num [success_rate]
  refine ⟨h14, ?_, ?_, ?_, ?_⟩
  · rw [reported_success_rate, h14]
    simp only [pyRound2, roundHalfEven]
    rw [show (25:ℚ)*100 = 2500 by norm_num,
        show ⌊(2500:ℚ)⌋ = 2500 by norm_num [Int.floor_eq_iff]]
    norm_num
  · rw [h14, perceived_difficulty,
        show (25:ℚ)/100*4 = 1 by norm_num,
        show pyInt 1 = 1 by simp [pyInt]]
    norm_num
  · rw [h44, perceived_difficulty,
        show (100:ℚ)/100*4 = 4 by norm_num,
        show pyInt 4 = 4 by simp [pyInt]]
    norm_num
  · rw [h04, perceived_difficulty,
        show (0:ℚ)/100*4 = 0 by norm_num,
        show pyInt 0 = 0 by simp [pyInt]]
    norm_num

/-- C1, amended: on a successful completion (test exists, owned by the
caller, uncompleted, with at least one response) the stored score is exactly
(correct responses / total responses) * 100, a rational in [0, 100], with no
rounding applied, and the completion timestamp is set at the same time. -/
theorem c1_amended_score_formula (db : DB) (user test_id : Nat) (now : Int) (t : Test)
    (ht : db.findTest test_id = some t) (hu : t.user_id = user) (hc : t.completed_at = none)
    (hr : responsesFor db test_id ≠ []) :
    complete_test db user test_id now =
      .ok (replaceTest db test_id
            (scored t now ((correct_count db test_id : ℚ) / (total_count db test_id : ℚ) * 100)),
           scored t now ((correct_count db test_id : ℚ) / (total_count db test_id : ℚ) * 100)) ∧
    0 ≤ (correct_count db test_id : ℚ) / (total_count db test_id : ℚ) * 100 ∧
    (correct_count db test_id : ℚ) / (total_count db test_id : ℚ) * 100 ≤ 100 := by
  have htot : 0 < total_count db test_id := by
    unfold total_count
    cases hres : responsesFor db test_id with
    | nil => exact absurd hres hr
    | cons a l => simp
  have hne : (responsesFor db test_id).isEmpty = false := by
    cases hres : responsesFor db test_id with
    | nil => exact absurd hres hr
    | cons a l => rfl
  refine ⟨?_, ?_, ?_⟩
  · simp only [complete_test, ht]
    rw [if_neg (by simp [hu]), hc]
    simp only [Option.isSome_none, Bool.false_eq_true, if_false, hne]
    rw [if_pos htot]
  · positivity
  · have h1 : (correct_count db test_id : ℚ) ≤ (total_count db test_id : ℚ) := by
      exact_mod_cast List.length_filter_le _ _
    have h2 : (0:ℚ) < (total_count db test_id : ℚ) := by exact_mod_cast htot
    have h3 : (correct_count db test_id : ℚ) / (total_count db test_id : ℚ) ≤ 1 :=
      (div_le_one h2).mpr h1
    nlinarith [h3]

/-- C1, witness: completing the 3-response, 2-correct test succeeds with the
exact score (2/3)*100 and completion timestamp 99. -/
theorem c1_amended_score_formula_witness :
    complete_test db1 1 1 99 =
      .ok (replaceTest db1 1
            (scored t1 99 ((correct_count db1 1 : ℚ) / (total_count db1 1 : ℚ) * 100)),
           scored t1 99 ((correct_count db1 1 : ℚ) / (total_count db1 1 : ℚ) * 100)) ∧
    0 ≤ (correct_count db1 1 : ℚ) / (total_count db1 1 : ℚ) * 100 ∧
    (correct_count db1 1 : ℚ) / (total_count db1 1 : ℚ) * 100 ≤ 100 :=
  c1_amended_score_formula db1 1 1 99 t1 rfl rfl rfl (by decide)

/-- C4: for a test owned by the caller, completion is rejected with No
responses found when the test is uncompleted but has zero responses, and
rejected with Test is already completed when a completion timestamp is
already set; in both cases the store is unchanged, so completed_at and score
keep their previous values. -/
theorem c4_completion_rejected (db : DB) (user test_id : Nat) (now : Int) (t : Test)
    (ht : db.findTest test_id = some t) (hu : t.user_id = user) :
    (t.completed_at = none → responsesFor db test_id = [] →
        complete_test db user test_id now =
          .error (.badRequest "No responses found for this test") ∧
        applyOp db (.completeTest user test_id now) = db) ∧
    (∀ c, t.completed_at = some c →
        complete_test db user test_id now =
          .error (.badRequest "Test is already completed") ∧
        applyOp db (.completeTest user test_id now) = db) := by
  constructor
  · intro hc hresp
    have he : complete_test db user test_id now =
        .error (.badRequest "No responses found for this test") := by
      simp only [complete_test, ht]
      rw [if_neg (by simp [hu]), hc]
      simp only [Option.isSome_none, Bool.false_eq_true, if_false, hresp]
      rfl
    exact ⟨he, by simp only [applyOp, applyExcept, he]⟩
  · intro c hc
    have he : complete_test db user test_id now =
        .error (.badRequest "Test is already completed") := by
      simp only [complete_test, ht]
      rw [if_neg (by simp [hu]), hc]
      rfl
    exact ⟨he, by simp only [applyOp, applyExcept, he]⟩

def t7a : Test :=
  { id := 1, user_id := 1, topic_id := 1, started_at := 0
    completed_at := some 100, score := some 50 }

/-- A store where user 1 started 3 tests and completed exactly one of them. -/
def db7 : DB :=
  { topics := [topicT], questions := [], options := []
    tests := [t7a, { t1 with id := 2 }, { t1 with id := 3 }]
    user_responses := []
    next_topic_id := 2, next_question_id := 1, next_option_id := 1
    next_test_id := 4, next_response_id := 1 }

/-- A store with one uncompleted, response-less test of user 1. -/
def db4 : DB :=
  { topics := [topicT], questions := [], options := [], tests := [t1]
    user_responses := []
    next_topic_id := 2, next_question_id := 1, next_option_id := 1
    next_test_id := 2, next_response_id := 1 }

/-- C4, witness: the zero-response test and the already-completed test are
both rejected, leaving the store untouched. -/
theorem c4_completion_rejected_witness :
    (complete_test db4 1 1 5 = .error (.badRequest "No responses found for this test") ∧
     applyOp db4 (.completeTest 1 1 5) = db4) ∧
    (complete_test db7 1 1 5 = .error (.badRequest "Test is already completed") ∧
     applyOp db7 (.completeTest 1 1 5) = db7) :=
  ⟨(c4_completion_rejected db4 1 1 5 t1 rfl rfl).1 rfl rfl,
   (c4_completion_rejected db7 1 1 5 t7a rfl rfl).2 100 rfl⟩

/-- C8: whenever the caller has no completed test in the selected period, the
user-performance response has every numeric field 0 and an empty
recent_scores list. -/
theorem c8_zero_completed_all_zero (db : DB) (user : Nat) (period : String) (now : Int)
    (h : completed_tests_in_period db user period now = []) :
    get_user_performance db user period now =
      { total_tests := 0, average_score := 0, best_score := 0, worst_score := 0
        recent_scores := [], completion_rate := 0 } := by
  simp only [get_user_performance, h]
  rfl

/-- C8, witness: user 1 has started tests in db4 but completed none, and the
report is all zeroes with empty recent_scores. -/
theorem c8_zero_completed_all_zero_witness :
    get_user_performance db4 1 "all" 50 =
      { total_tests := 0, average_score := 0, best_score := 0, worst_score := 0
        recent_scores := [], completion_rate := 0 } :=
  c8_zero_completed_all_zero db4 1 "all" 50 (by decide)

/-- C7, counterexample: with 1 completed test out of 3 started, the reported
completion rate is the rounded 33.33, not the exact (1/3)*100. -/
theorem c7_counterexample :
    (get_user_performance db7 1 "all" 1000).completion_rate = 3333/100 ∧
    ¬((3333:ℚ)/100 = (1:ℚ)/3 * 100) := by
  constructor
  · have h : (get_user_performance db7 1 "all" 1000).completion_rate =
        pyRound2 (((1:ℕ) : ℚ) / ((3:ℕ) : ℚ) * 100) := rfl
    rw [h, show ((1:ℕ):ℚ) = 1 by norm_num, show ((3:ℕ):ℚ) = 3 by norm_num]
    simp only [pyRound2, roundHalfEven]
    rw [show (1:ℚ)/3*100*100 = 10000/3 by norm_num,
        show ⌊(10000:ℚ)/3⌋ = 3333 by norm_num [Int.floor_eq_iff]]
    norm_num
  · norm_num

/-- Any test counted in the selected period belongs to the caller's completed
tests, so the all-time count of the caller's tests is positive. -/
theorem mem_period_mem_user (db : DB) (user : Nat) (period : String) (now : Int)
    (t : Test) (hmem : t ∈ completed_tests_in_period db user period now) :
    t ∈ db.tests ∧ (t.user_id == user) = true := by
  unfold completed_tests_in_period at hmem
  have hbase : t ∈ db.tests.filter (fun t2 => t2.user_id == user && t2.completed_at.isSome) := by
    split at hmem
    · exact List.mem_of_mem_filter hmem
    · split at hmem
      · exact List.mem_of_mem_filter hmem
      · split at hmem
        · exact List.mem_of_mem_filter hmem
        · exact hmem
  obtain ⟨h1, h2⟩ := List.mem_filter.1 hbase
  rw [Bool.and_eq_true] at h2
  exact ⟨h1, h2.1⟩

/-- C7, amended: with at least one completed test in the selected period, the
reported completion rate is (completed tests in the period) / (all tests the
caller ever started, not filtered by the window) * 100, rounded to 2
decimals. -/
theorem c7_amended_completion_rate (db : DB) (user : Nat) (period : String) (now : Int)
    (h : completed_tests_in_period db user period now ≠ []) :
    (get_user_performance db user period now).completion_rate =
      pyRound2 (((completed_tests_in_period db user period now).length : ℚ) /
                (all_tests_count db user : ℚ) * 100) := by
  obtain ⟨t, htmem⟩ := List.exists_mem_of_ne_nil _ h
  obtain ⟨htests, huser⟩ := mem_period_mem_user db user period now t htmem
  have hpos : 0 < all_tests_count db user := by
    have : t ∈ db.tests.filter (fun t2 => t2.user_id == user) :=
      List.mem_filter.2 ⟨htests, huser⟩
    exact List.length_pos.2 (List.ne_nil_of_mem this)
  have hne : (completed_tests_in_period db user period now).isEmpty = false := by
    cases hres : completed_tests_in_period db user period now with
    | nil => exact absurd hres h
    | cons a l => rfl
  simp only [get_user_performance, hne, Bool.false_eq_true, if_false]
  rw [if_pos hpos]

/-- C7, witness: in db7 the completion rate is the rounding of (1/3)*100. -/
theorem c7_amended_completion_rate_witness :
    (get_user_performance db7 1 "all" 1000).completion_rate =
      pyRound2 (((completed_tests_in_period db7 1 "all" 1000).length : ℚ) /
                (all_tests_count db7 1 : ℚ) * 100) :=
  c7_amended_completion_rate db7 1 "all" 1000 (by decide)

/-- Under the submit_response guards (test exists, owned, uncompleted,
question exists), the handler reduces to its grading step. -/
theorem submit_response_eq_of_guards (db : DB) (user test_id : Nat)
    (resp : UserResponseCreate) (now : Int) (t : Test) (q : Question)
    (ht : db.findTest test_id = some t) (hu : t.user_id = user) (hc : t.completed_at = none)
    (hq : db.findQuestion resp.question_id = some q) :
    submit_response db user test_id resp now =
      match grade_response db q resp with
      | .error e => .error e
      | .ok b => .ok (pushResponse db (mkResp db test_id resp b now),
                      mkResp db test_id resp b now) := by
  simp only [submit_response, ht, hq]
  rw [if_neg (by simp [hu]), hc]
  rfl

/-- C3: for a response to a non-open-ended question, a supplied (non-null,
non-zero) option id that matches no option of this question is rejected with
a not-found error and inserts no row; a supplied option id that matches an
option of this question inserts a row whose is_correct equals that option's
is_correct flag; and a missing option selection inserts a row with
is_correct false and raises no error. -/
theorem c3_option_grading (db : DB) (user test_id : Nat) (resp : UserResponseCreate)
    (now : Int) (t : Test) (q : Question)
    (ht : db.findTest test_id = some t) (hu : t.user_id = user) (hc : t.completed_at = none)
    (hq : db.findQuestion resp.question_id = some q)
    (hne : q.question_type ≠ "open_ended") :
    (∀ oid, resp.option_id = some oid → oid ≠ 0 →
        db.options.find? (fun o => o.id == oid && o.question_id == q.id) = none →
        submit_response db user test_id resp now =
          .error (.notFound "Option not found or does not belong to this question") ∧
        applyOp db (.submitResponse user test_id resp now) = db) ∧
    (∀ oid o, resp.option_id = some oid → oid ≠ 0 →
        db.options.find? (fun o2 => o2.id == oid && o2.question_id == q.id) = some o →
        submit_response db user test_id resp now =
          .ok (pushResponse db (mkResp db test_id resp o.is_correct now),
               mkResp db test_id resp o.is_correct now)) ∧
    (pyTruthyNat resp.option_id = false →
        submit_response db user test_id resp now =
          .ok (pushResponse db (mkResp db test_id resp false now),
               mkResp db test_id resp false now)) := by
  have hcore := submit_response_eq_of_guards db user test_id resp now t q ht hu hc hq
  have hbeq : (q.question_type == "open_ended") = false := beq_eq_false_iff_ne.mpr hne
  refine ⟨?_, ?_, ?_⟩
  · intro oid hoid h0 hfind
    have hg : grade_response db q resp =
        .error (.notFound "Option not found or does not belong to this question") := by
      have h0' : (oid == 0) = false := by simpa using h0
      simp only [grade_response, hbeq, Bool.false_eq_true, if_false, hoid,
        pyTruthyNat, h0', Bool.not_false, if_true, Option.getD_some]
      rw [hfind]
    constructor
    · rw [hcore, hg]
    · simp only [applyOp]
      rw [hcore, hg]
      rfl
  · intro oid o hoid h0 hfind
    have hg : grade_response db q resp = .ok o.is_correct := by
      have h0' : (oid == 0) = false := by simpa using h0
      simp only [grade_response, hbeq, Bool.false_eq_true, if_false, hoid,
        pyTruthyNat, h0', Bool.not_false, if_true, Option.getD_some]
      rw [hfind]
    rw [hcore, hg]
  · intro htr
    have hg : grade_response db q resp = .ok false := by
      simp only [grade_response, hbeq, Bool.false_eq_true, if_false, htr]
    rw [hcore, hg]

def qmc : Question :=
  { id := 1, topic_id := 1, question_text := "2 + 2 equals what?"
    question_type := "multiple_choice", difficulty := 1, correct_answer := none }

def o1 : AnswerOption :=
  { id := 1, question_id := 1, option_text := "4", is_correct := true }

def o2 : AnswerOption :=
  { id := 2, question_id := 1, option_text := "5", is_correct := false }

/-- A store with a multiple-choice question, its two options, and an open,
response-less test of user 1. -/
def db3 : DB :=
  { topics := [topicT], questions := [qmc], options := [o1, o2], tests := [t1]
    user_responses := []
    next_topic_id := 2, next_question_id := 2, next_option_id := 3
    next_test_id := 2, next_response_id := 1 }

def rBad : UserResponseCreate :=
  { question_id := 1, option_id := some 9, response_text := none }

def rGood : UserResponseCreate :=
  { question_id := 1, option_id := some 1, response_text := none }

def rNone : UserResponseCreate :=
  { question_id := 1, option_id := none, response_text := none }

/-- C3, witness: a nonexistent option id 9 is rejected and inserts nothing,
selecting the correct option records is_correct true, and omitting the
option records is_correct false. -/
theorem c3_option_grading_witness :
    (submit_response db3 1 1 rBad 7 =
        .error (.notFound "Option not found or does not belong to this question") ∧
     applyOp db3 (.submitResponse 1 1 rBad 7) = db3) ∧
    submit_response db3 1 1 rGood 7 =
      .ok (pushResponse db3 (mkResp db3 1 rGood o1.is_correct 7),
           mkResp db3 1 rGood o1.is_correct 7) ∧
    submit_response db3 1 1 rNone 7 =
      .ok (pushResponse db3 (mkResp db3 1 rNone false 7), mkResp db3 1 rNone false 7) :=
  ⟨(c3_option_grading db3 1 1 rBad 7 t1 qmc rfl rfl rfl rfl (by decide)).1
      9 rfl (by decide) rfl,
   (c3_option_grading db3 1 1 rGood 7 t1 qmc rfl rfl rfl rfl (by decide)).2.1
      1 o1 rfl (by decide) rfl,
   (c3_option_grading db3 1 1 rNone 7 t1 qmc rfl rfl rfl rfl (by decide)).2.2 rfl⟩

/-! Helper lemmas about list lookups under the store updates. -/

theorem find?_append_left {α} (p : α → Bool) {l1 : List α} (l2 : List α) {x : α}
    (h : l1.find? p = some x) : (l1 ++ l2).find? p = some x := by
  rw [List.find?_append, h]; rfl

/-- Replacing all rows of one id leaves a find? for another id unchanged,
provided the replacement row fails the predicate and every replaced row
failed it already. -/
theorem find?_map_replace (l : List Test) (tid' : Nat) (t' : Test) (p : Test → Bool)
    (hp : p t' = false) (hq : ∀ x ∈ l, (x.id == tid') = true → p x = false) :
    (l.map fun x => if x.id == tid' then t' else x).find? p = l.find? p := by
  induction l with
  | nil => rfl
  | cons a l ih =>
    have hrest : ∀ x ∈ l, (x.id == tid') = true → p x = false :=
      fun x hx => hq x (List.mem_cons_of_mem _ hx)
    simp only [List.map_cons]
    by_cases ha : (a.id == tid') = true
    · have hpa : p a = false := hq a (List.mem_cons_self a l) ha
      rw [if_pos ha, List.find?_cons_of_neg _ (by simp [hp]),
        List.find?_cons_of_neg _ (by simp [hpa])]
      exact ih hrest
    · rw [if_neg ha]
      cases hpa : p a
      · rw [List.find?_cons_of_neg _ (by simp [hpa]),
          List.find?_cons_of_neg _ (by simp [hpa])]
        exact ih hrest
      · rw [List.find?_cons_of_pos _ (by simp [hpa]),
          List.find?_cons_of_pos _ (by simp [hpa])]

/-- Replacing rows with a row that satisfies the predicate keeps an all-true
list all-true. -/
theorem all_map_replace (l : List Test) (c : Test → Bool) (t' : Test) (p : Test → Bool)
    (h : l.all p = true) (hp : p t' = true) :
    (l.map fun x => if c x then t' else x).all p = true := by
  induction l with
  | nil => rfl
  | cons a l ih =>
    simp only [List.all_cons, Bool.and_eq_true] at h
    simp only [List.map_cons, List.all_cons, Bool.and_eq_true]
    refine ⟨?_, ih h.2⟩
    by_cases hca : c a = true
    · rw [if_pos hca]; exact hp
    · rw [if_neg hca]; exact h.1

theorem findTest_congr {a b : DB} (h : a.tests = b.tests) (tid : Nat) :
    a.findTest tid = b.findTest tid := by
  unfold DB.findTest; rw [h]

theorem responsesFor_congr {a b : DB} (h : a.user_responses = b.user_responses) (tid : Nat) :
    responsesFor a tid = responsesFor b tid := by
  unfold responsesFor; rw [h]

/-! Inversion lemmas: what each handler's success means for the store. -/

theorem create_topic_ok (db : DB) (tc : TopicCreate) (now : Int) (db' : DB) (x : Topic)
    (h : create_topic db tc now = .ok (db', x)) :
    db'.tests = db.tests ∧ db'.user_responses = db.user_responses := by
  unfold create_topic at h
  split at h
  · cases h
  · cases h; exact ⟨rfl, rfl⟩

theorem update_topic_ok (db : DB) (tid : Nat) (tu : TopicUpdate) (db' : DB) (x : Topic)
    (h : update_topic db tid tu = .ok (db', x)) :
    db'.tests = db.tests ∧ db'.user_responses = db.user_responses := by
  unfold update_topic at h
  split at h
  · cases h
  · split at h
    · cases h
    · cases h; exact ⟨rfl, rfl⟩

theorem delete_topic_ok (db : DB) (tid : Nat) (db' : DB)
    (h : delete_topic db tid = .ok db') :
    db'.tests = db.tests ∧ db'.user_responses = db.user_responses := by
  unfold delete_topic at h
  split at h
  · cases h
  · cases h; exact ⟨rfl, rfl⟩

theorem create_question_ok (db : DB) (qc : QuestionCreate) (db' : DB) (x : Question)
    (h : create_question db qc = .ok (db', x)) :
    db'.tests = db.tests ∧ db'.user_responses = db.user_responses := by
  unfold create_question at h
  split at h
  · cases h
  · split at h
    · cases h
    · split at h
      · cases h
      · cases h; exact ⟨rfl, rfl⟩

theorem create_option_ok (db : DB) (qid : Nat) (oc : OptionCreate) (db' : DB)
    (x : AnswerOption) (h : create_option db qid oc = .ok (db', x)) :
    db'.tests = db.tests ∧ db'.user_responses = db.user_responses := by
  unfold create_option at h
  split at h
  · cases h
  · split at h
    · cases h
    · cases h; exact ⟨rfl, rfl⟩

theorem update_question_ok (db : DB) (qid : Nat) (qu : QuestionUpdate) (db' : DB)
    (x : Question) (h : update_question db qid qu = .ok (db', x)) :
    db'.tests = db.tests ∧ db'.user_responses = db.user_responses := by
  unfold update_question at h
  split at h
  · cases h
  · split at h
    · cases h
    · split at h
      · cases h
      · split at h
        · cases h
        · split at h
          · cases h
          · cases h; exact ⟨rfl, rfl⟩

theorem delete_question_ok (db : DB) (qid : Nat) (db' : DB)
    (h : delete_question db qid = .ok db') :
    db'.tests = db.tests ∧ db'.user_responses = db.user_responses := by
  unfold delete_question at h
  split at h
  · cases h
  · cases h; exact ⟨rfl, rfl⟩

theorem start_test_ok (db : DB) (u tid : Nat) (now : Int) (db' : DB) (x : Test)
    (h : start_test db u tid now = .ok (db', x)) :
    db'.tests = db.tests ++ [x] ∧ db'.user_responses = db.user_responses ∧
    x.completed_at = none ∧ x.score = none := by
  unfold start_test at h
  split at h
  · cases h
  · cases h; exact ⟨rfl, rfl, rfl, rfl⟩

theorem submit_response_ok (db : DB) (u tid : Nat) (resp : UserResponseCreate) (now : Int)
    (db' : DB) (r : UserResponse)
    (h : submit_response db u tid resp now = .ok (db', r)) :
    db'.tests = db.tests ∧ db'.user_responses = db.user_responses ++ [r] ∧
    r.test_id = tid ∧ ∃ t, db.findTest tid = some t ∧ t.completed_at = none := by
  unfold submit_response at h
  split at h
  · cases h
  · rename_i test heq
    split at h
    · cases h
    · split at h
      · cases h
      · rename_i hdone
        split at h
        · cases h
        · split at h
          · cases h
          · cases h
            refine ⟨rfl, rfl, rfl, test, heq, ?_⟩
            simpa [Option.not_isSome_iff_eq_none] using hdone

theorem complete_test_ok (db : DB) (u tid : Nat) (now : Int) (db' : DB) (tret : Test)
    (h : complete_test db u tid now = .ok (db', tret)) :
    ∃ t, db.findTest tid = some t ∧ t.completed_at = none ∧
      tret.id = t.id ∧ tret.completed_at = some now ∧ (∃ s, tret.score = some s) ∧
      db' = replaceTest db tid tret := by
  unfold complete_test at h
  split at h
  · cases h
  · rename_i test heq
    split at h
    · cases h
    · split at h
      · cases h
      · rename_i hdone
        split at h
        all_goals dsimp only at h
        all_goals split at h
        all_goals cases h
        all_goals refine ⟨test, heq, ?_, rfl, rfl, ⟨_, rfl⟩, rfl⟩
        all_goals simpa [Option.not_isSome_iff_eq_none] using hdone

/-- Preservation of a completed test and of its response list under a store
transition that leaves tests and user_responses untouched. -/
theorem frozen_pres_of_eq (db db2 : DB) (tid : Nat) (c : Int)
    (htests : db2.tests = db.tests) (hresp : db2.user_responses = db.user_responses)
    (h1 : ∃ t, db.findTest tid = some t ∧ t.completed_at = some c) :
    (∃ t', db2.findTest tid = some t' ∧ t'.completed_at = some c) ∧
    responsesFor db2 tid = responsesFor db tid := by
  obtain ⟨t, ht, hc⟩ := h1
  exact ⟨⟨t, by rw [findTest_congr htests tid]; exact ht, hc⟩, responsesFor_congr hresp tid⟩

/-- One API request preserves a completed test's completion timestamp and its
recorded response list. -/
theorem frozen_step (db : DB) (op : Op) (tid : Nat) (c : Int)
    (h1 : ∃ t, db.findTest tid = some t ∧ t.completed_at = some c) :
    (∃ t', (applyOp db op).findTest tid = some t' ∧ t'.completed_at = some c) ∧
    responsesFor (applyOp db op) tid = responsesFor db tid := by
  cases op with
  | createTopic tc now =>
    cases hres : create_topic db tc now with
    | error e =>
      have : applyOp db (.createTopic tc now) = db := by simp [applyOp, applyExcept, hres]
      rw [this]; exact frozen_pres_of_eq db db tid c rfl rfl h1
    | ok pr =>
      obtain ⟨db2, x⟩ := pr
      obtain ⟨h2, h3⟩ := create_topic_ok db tc now db2 x hres
      have : applyOp db (.createTopic tc now) = db2 := by simp [applyOp, applyExcept, hres]
      rw [this]; exact frozen_pres_of_eq db db2 tid c h2 h3 h1
  | updateTopic tid2 tu =>
    cases hres : update_topic db tid2 tu with
    | error e =>
      have : applyOp db (.updateTopic tid2 tu) = db := by simp [applyOp, applyExcept, hres]
      rw [this]; exact frozen_pres_of_eq db db tid c rfl rfl h1
    | ok pr =>
      obtain ⟨db2, x⟩ := pr
      obtain ⟨h2, h3⟩ := update_topic_ok db tid2 tu db2 x hres
      have : applyOp db (.updateTopic tid2 tu) = db2 := by simp [applyOp, applyExcept, hres]
      rw [this]; exact frozen_pres_of_eq db db2 tid c h2 h3 h1
  | deleteTopic tid2 =>
    cases hres : delete_topic db tid2 with
    | error e =>
      have : applyOp db (.deleteTopic tid2) = db := by simp [applyOp, hres]
      rw [this]; exact frozen_pres_of_eq db db tid c rfl rfl h1
    | ok db2 =>
      obtain ⟨h2, h3⟩ := delete_topic_ok db tid2 db2 hres
      have : applyOp db (.deleteTopic tid2) = db2 := by simp [applyOp, hres]
      rw [this]; exact frozen_pres_of_eq db db2 tid c h2 h3 h1
  | createQuestion qc =>
    cases hres : create_question db qc with
    | error e =>
      have : applyOp db (.createQuestion qc) = db := by simp [applyOp, applyExcept, hres]
      rw [this]; exact frozen_pres_of_eq db db tid c rfl rfl h1
    | ok pr =>
      obtain ⟨db2, x⟩ := pr
      obtain ⟨h2, h3⟩ := create_question_ok db qc db2 x hres
      have : applyOp db (.createQuestion qc) = db2 := by simp [applyOp, applyExcept, hres]
      rw [this]; exact frozen_pres_of_eq db db2 tid c h2 h3 h1
  | createOption qid oc =>
    cases hres : create_option db qid oc with
    | error e =>
      have : applyOp db (.createOption qid oc) = db := by simp [applyOp, applyExcept, hres]
      rw [this]; exact frozen_pres_of_eq db db tid c rfl rfl h1
    | ok pr =>
      obtain ⟨db2, x⟩ := pr
      obtain ⟨h2, h3⟩ := create_option_ok db qid oc db2 x hres
      have : applyOp db (.createOption qid oc) = db2 := by simp [applyOp, applyExcept, hres]
      rw [this]; exact frozen_pres_of_eq db db2 tid c h2 h3 h1
  | updateQuestion qid qu =>
    cases hres : update_question db qid qu with
    | error e =>
      have : applyOp db (.updateQuestion qid qu) = db := by simp [applyOp, applyExcept, hres]
      rw [this]; exact frozen_pres_of_eq db db tid c rfl rfl h1
    | ok pr =>
      obtain ⟨db2, x⟩ := pr
      obtain ⟨h2, h3⟩ := update_question_ok db qid qu db2 x hres
      have : applyOp db (.updateQuestion qid qu) = db2 := by simp [applyOp, applyExcept, hres]
      rw [this]; exact frozen_pres_of_eq db db2 tid c h2 h3 h1
  | deleteQuestion qid =>
    cases hres : delete_question db qid with
    | error e =>
      have : applyOp db (.deleteQuestion qid) = db := by simp [applyOp, hres]
      rw [this]; exact frozen_pres_of_eq db db tid c rfl rfl h1
    | ok db2 =>
      obtain ⟨h2, h3⟩ := delete_question_ok db qid db2 hres
      have : applyOp db (.deleteQuestion qid) = db2 := by simp [applyOp, hres]
      rw [this]; exact frozen_pres_of_eq db db2 tid c h2 h3 h1
  | startTest u tid2 now =>
    cases hres : start_test db u tid2 now with
    | error e =>
      have : applyOp db (.startTest u tid2 now) = db := by simp [applyOp, applyExcept, hres]
      rw [this]; exact frozen_pres_of_eq db db tid c rfl rfl h1
    | ok pr =>
      obtain ⟨db2, x⟩ := pr
      obtain ⟨h2, h3, _, _⟩ := start_test_ok db u tid2 now db2 x hres
      have happ : applyOp db (.startTest u tid2 now) = db2 := by
        simp [applyOp, applyExcept, hres]
      rw [happ]
      obtain ⟨t, ht, hc⟩ := h1
      refine ⟨⟨t, ?_, hc⟩, responsesFor_congr h3 tid⟩
      unfold DB.findTest at ht ⊢
      rw [h2]
      exact find?_append_left _ _ ht
  | submitResponse u tid2 resp now =>
    cases hres : submit_response db u tid2 resp now with
    | error e =>
      have : applyOp db (.submitResponse u tid2 resp now) = db := by
        simp [applyOp, applyExcept, hres]
      rw [this]; exact frozen_pres_of_eq db db tid c rfl rfl h1
    | ok pr =>
      obtain ⟨db2, r⟩ := pr
      obtain ⟨h2, h3, h4, t0, ht0, hc0⟩ := submit_response_ok db u tid2 resp now db2 r hres
      have happ : applyOp db (.submitResponse u tid2 resp now) = db2 := by
        simp [applyOp, applyExcept, hres]
      rw [happ]
      obtain ⟨t, ht, hc⟩ := h1
      by_cases heq : tid2 = tid
      · subst heq
        rw [ht0] at ht
        cases ht
        rw [hc0] at hc
        cases hc
      · refine ⟨⟨t, by rw [findTest_congr h2 tid]; exact ht, hc⟩, ?_⟩
        unfold responsesFor
        rw [h3, List.filter_append]
        have : (r.test_id == tid) = false := by
          rw [h4]; exact beq_eq_false_iff_ne.mpr heq
        simp [this]
  | completeTest u tid2 now =>
    cases hres : complete_test db u tid2 now with
    | error e =>
      have : applyOp db (.completeTest u tid2 now) = db := by
        simp [applyOp, applyExcept, hres]
      rw [this]; exact frozen_pres_of_eq db db tid c rfl rfl h1
    | ok pr =>
      obtain ⟨db2, tret⟩ := pr
      obtain ⟨t0, ht0, hc0, hid, _, _, hdb2⟩ := complete_test_ok db u tid2 now db2 tret hres
      have happ : applyOp db (.completeTest u tid2 now) = db2 := by
        simp [applyOp, applyExcept, hres]
      rw [happ, hdb2]
      obtain ⟨t, ht, hc⟩ := h1
      by_cases heq : tid2 = tid
      · subst heq
        rw [ht0] at ht
        cases ht
        rw [hc0] at hc
        cases hc
      · have hti : t0.id = tid2 := by
          have := List.find?_some ht0
          simpa using this
        have hi2 : tret.id = tid2 := hid.trans hti
        refine ⟨⟨t, ?_, hc⟩, rfl⟩
        unfold DB.findTest at ht ⊢
        unfold replaceTest
        simp only
        rw [find?_map_replace db.tests tid2 tret _
          (by rw [hi2]; exact beq_eq_false_iff_ne.mpr heq)
          (fun x hx hxid => by
            have : x.id = tid2 := by simpa using hxid
            rw [this]; exact beq_eq_false_iff_ne.mpr heq)]
        exact ht

/-- Over any sequence of API requests, a completed test keeps its completion
timestamp and its response list. -/
theorem frozen_run (ops : List Op) (db : DB) (tid : Nat) (c : Int)
    (h1 : ∃ t, db.findTest tid = some t ∧ t.completed_at = some c) :
    (∃ t', (run db ops).findTest tid = some t' ∧ t'.completed_at = some c) ∧
    responsesFor (run db ops) tid = responsesFor db tid := by
  induction ops generalizing db with
  | nil => exact ⟨h1, rfl⟩
  | cons op rest ih =>
    have hstep := frozen_step db op tid c h1
    have hrest := ih (applyOp db op) hstep.1
    exact ⟨hrest.1, hrest.2.trans hstep.2⟩

/-- C5: a test whose completed_at is set rejects every response submission
(by any caller) and the store is unchanged; and under any sequence of API
requests the test's recorded responses never change and its completion
timestamp stays set, so a completed test never gains further responses: the
transition is one-way and no operation reopens it. -/
theorem c5_completed_test_frozen (db : DB) (tid : Nat) (c : Int) (t : Test)
    (ht : db.findTest tid = some t) (hc : t.completed_at = some c) :
    (∀ user resp now, (submit_response db user tid resp now).isOk = false ∧
        applyOp db (.submitResponse user tid resp now) = db) ∧
    (∀ ops, responsesFor (run db ops) tid = responsesFor db tid ∧
        ((run db ops).findTest tid).map Test.completed_at = some (some c)) := by
  constructor
  · intro user resp now
    have herr : ∃ e, submit_response db user tid resp now = .error e := by
      simp only [submit_response, ht]
      by_cases huser : t.user_id = user
      · rw [if_neg (by simp [huser]), hc]
        exact ⟨_, rfl⟩
      · rw [if_pos (by simp [huser])]
        exact ⟨_, rfl⟩
    obtain ⟨e, he⟩ := herr
    constructor
    · rw [he]; rfl
    · simp only [applyOp, applyExcept, he]
  · intro ops
    have h := frozen_run ops db tid c ⟨t, ht, hc⟩
    obtain ⟨⟨t', ht', hc'⟩, hresp⟩ := h
    exact ⟨hresp, by rw [ht']; simp [hc']⟩

def ops5 : List Op :=
  [.submitResponse 1 1 rNone 20, .startTest 1 1 21, .completeTest 1 1 22,
   .createTopic ⟨"Later", none⟩ 23]

/-- C5, witness: in db7, test 1 is completed at time 100; a submission against
it is rejected without a row, and after a further operation sequence its
responses and completion timestamp are unchanged. -/
theorem c5_completed_test_frozen_witness :
    ((submit_response db7 1 1 rNone 20).isOk = false ∧
     applyOp db7 (.submitResponse 1 1 rNone 20) = db7) ∧
    (responsesFor (run db7 ops5) 1 = responsesFor db7 1 ∧
     ((run db7 ops5).findTest 1).map Test.completed_at = some (some 100)) :=
  ⟨(c5_completed_test_frozen db7 1 100 t7a rfl rfl).1 1 rNone 20,
   (c5_completed_test_frozen db7 1 100 t7a rfl rfl).2 ops5⟩

/-- The C10 invariant as a check over the whole store: every test row has
score set exactly when completed_at is set. -/
def scoreIffCompleted (db : DB) : Bool :=
  db.tests.all (fun t => t.score.isSome == t.completed_at.isSome)

theorem scoreIffCompleted_congr {a b : DB} (h : a.tests = b.tests) :
    scoreIffCompleted a = scoreIffCompleted b := by
  unfold scoreIffCompleted; rw [h]

theorem scoreIff_pres_of_eq (db db2 : DB) (h2 : db2.tests = db.tests)
    (h : scoreIffCompleted db = true) : scoreIffCompleted db2 = true := by
  rw [scoreIffCompleted_congr h2]; exact h

/-- One API request preserves the score-iff-completed invariant: creation
inserts a test with both fields null, completion sets both together, and no
other operation touches the tests table. -/
theorem scoreIffCompleted_step (db : DB) (op : Op) (h : scoreIffCompleted db = true) :
    scoreIffCompleted (applyOp db op) = true := by
  cases op with
  | createTopic tc now =>
    cases hres : create_topic db tc now with
    | error e =>
      have happ : applyOp db (.createTopic tc now) = db := by simp [applyOp, applyExcept, hres]
      rw [happ]; exact h
    | ok pr =>
      obtain ⟨db2, x⟩ := pr
      have happ : applyOp db (.createTopic tc now) = db2 := by simp [applyOp, applyExcept, hres]
      rw [happ]
      exact scoreIff_pres_of_eq db db2 (create_topic_ok db tc now db2 x hres).1 h
  | updateTopic tid2 tu =>
    cases hres : update_topic db tid2 tu with
    | error e =>
      have happ : applyOp db (.updateTopic tid2 tu) = db := by simp [applyOp, applyExcept, hres]
      rw [happ]; exact h
    | ok pr =>
      obtain ⟨db2, x⟩ := pr
      have happ : applyOp db (.updateTopic tid2 tu) = db2 := by simp [applyOp, applyExcept, hres]
      rw [happ]
      exact scoreIff_pres_of_eq db db2 (update_topic_ok db tid2 tu db2 x hres).1 h
  | deleteTopic tid2 =>
    cases hres : delete_topic db tid2 with
    | error e =>
      have happ : applyOp db (.deleteTopic tid2) = db := by simp [applyOp, hres]
      rw [happ]; exact h
    | ok db2 =>
      have happ : applyOp db (.deleteTopic tid2) = db2 := by simp [applyOp, hres]
      rw [happ]
      exact scoreIff_pres_of_eq db db2 (delete_topic_ok db tid2 db2 hres).1 h
  | createQuestion qc =>
    cases hres : create_question db qc with
    | error e =>
      have happ : applyOp db (.createQuestion qc) = db := by simp [applyOp, applyExcept, hres]
      rw [happ]; exact h
    | ok pr =>
      obtain ⟨db2, x⟩ := pr
      have happ : applyOp db (.createQuestion qc) = db2 := by simp [applyOp, applyExcept, hres]
      rw [happ]
      exact scoreIff_pres_of_eq db db2 (create_question_ok db qc db2 x hres).1 h
  | createOption qid oc =>
    cases hres : create_option db qid oc with
    | error e =>
      have happ : applyOp db (.createOption qid oc) = db := by simp [applyOp, applyExcept, hres]
      rw [happ]; exact h
    | ok pr =>
      obtain ⟨db2, x⟩ := pr
      have happ : applyOp db (.createOption qid oc) = db2 := by
        simp [applyOp, applyExcept, hres]
      rw [happ]
      exact scoreIff_pres_of_eq db db2 (create_option_ok db qid oc db2 x hres).1 h
  | updateQuestion qid qu =>
    cases hres : update_question db qid qu with
    | error e =>
      have happ : applyOp db (.updateQuestion qid qu) = db := by
        simp [applyOp, applyExcept, hres]
      rw [happ]; exact h
    | ok pr =>
      obtain ⟨db2, x⟩ := pr
      have happ : applyOp db (.updateQuestion qid qu) = db2 := by
        simp [applyOp, applyExcept, hres]
      rw [happ]
      exact scoreIff_pres_of_eq db db2 (update_question_ok db qid qu db2 x hres).1 h
  | deleteQuestion qid =>
    cases hres : delete_question db qid with
    | error e =>
      have happ : applyOp db (.deleteQuestion qid) = db := by simp [applyOp, hres]
      rw [happ]; exact h
    | ok db2 =>
      have happ : applyOp db (.deleteQuestion qid) = db2 := by simp [applyOp, hres]
      rw [happ]
      exact scoreIff_pres_of_eq db db2 (delete_question_ok db qid db2 hres).1 h
  | startTest u tid2 now =>
    cases hres : start_test db u tid2 now with
    | error e =>
      have happ : applyOp db (.startTest u tid2 now) = db := by
        simp [applyOp, applyExcept, hres]
      rw [happ]; exact h
    | ok pr =>
      obtain ⟨db2, x⟩ := pr
      obtain ⟨h2, _, hcomp, hscore⟩ := start_test_ok db u tid2 now db2 x hres
      have happ : applyOp db (.startTest u tid2 now) = db2 := by
        simp [applyOp, applyExcept, hres]
      rw [happ]
      unfold scoreIffCompleted at h ⊢
      rw [h2, List.all_append, h]
      simp [hscore, hcomp]
  | submitResponse u tid2 resp now =>
    cases hres : submit_response db u tid2 resp now with
    | error e =>
      have happ : applyOp db (.submitResponse u tid2 resp now) = db := by
        simp [applyOp, applyExcept, hres]
      rw [happ]; exact h
    | ok pr =>
      obtain ⟨db2, r⟩ := pr
      have happ : applyOp db (.submitResponse u tid2 resp now) = db2 := by
        simp [applyOp, applyExcept, hres]
      rw [happ]
      exact scoreIff_pres_of_eq db db2
        (submit_response_ok db u tid2 resp now db2 r hres).1 h
  | completeTest u tid2 now =>
    cases hres : complete_test db u tid2 now with
    | error e =>
      have happ : applyOp db (.completeTest u tid2 now) = db := by
        simp [applyOp, applyExcept, hres]
      rw [happ]; exact h
    | ok pr =>
      obtain ⟨db2, tret⟩ := pr
      obtain ⟨t0, _, _, _, hcomp, ⟨s, hscore⟩, hdb2⟩ :=
        complete_test_ok db u tid2 now db2 tret hres
      have happ : applyOp db (.completeTest u tid2 now) = db2 := by
        simp [applyOp, applyExcept, hres]
      rw [happ, hdb2]
      unfold scoreIffCompleted at h ⊢
      unfold replaceTest
      simp only
      exact all_map_replace db.tests _ tret _ h (by simp [hscore, hcomp])

/-- C10: in every store reachable through the API operations from the empty
store, a test's score is non-null exactly when its completed_at is non-null:
start_test inserts both as null, complete_test sets both together, and no
operation unsets either.  In particular a test with score 100.0 is always a
completed test, so counting tests with score = 100.0 counts only completed
tests. -/
theorem c10_score_iff_completed (db : DB) (h : Reachable db) :
    scoreIffCompleted db = true := by
  obtain ⟨ops, hops⟩ := h
  subst hops
  have hrun : ∀ (l : List Op) (d : DB), scoreIffCompleted d = true →
      scoreIffCompleted (run d l) = true := by
    intro l
    induction l with
    | nil => intro d hd; exact hd
    | cons op rest ih => intro d hd; exact ih (applyOp d op) (scoreIffCompleted_step d op hd)
  exact hrun ops emptyDB rfl

def demoOps : List Op :=
  [.createTopic ⟨"Demo", none⟩ 0,
   .createQuestion ⟨1, "2 plus 2 equals what?", "open_ended", 1, some "4"⟩,
   .startTest 1 1 10,
   .submitResponse 1 1 ⟨1, none, some "4"⟩ 11,
   .completeTest 1 1 12]

/-- C10, witness: after creating a topic and a question, starting a test,
answering it and completing it, every test row satisfies the invariant. -/
theorem c10_score_iff_completed_witness :
    scoreIffCompleted (run emptyDB demoOps) = true :=
  c10_score_iff_completed (run emptyDB demoOps) ⟨demoOps, rfl⟩

/-- The C9 invariant as a check over the whole store: a question that is not
open-ended carries no correct-answer string. -/
def nonOpenEndedNoAnswer (db : DB) : Bool :=
  db.questions.all (fun q => q.question_type == "open_ended" || q.correct_answer.isNone)

def ops9 : List Op :=
  [.createTopic ⟨"Geo", none⟩ 0,
   .createQuestion ⟨1, "Capital of France?", "open_ended", 1, some "Paris"⟩,
   .updateQuestion 1 ⟨none, none, some "multiple_choice", none, none⟩]

/-- C9, counterexample: the invariant is not preserved by every catalog
operation: creating an open-ended question with answer Paris and then
updating only its question_type to multiple_choice leaves a non-open-ended
question that still stores correct_answer Paris. -/
theorem c9_counterexample :
    nonOpenEndedNoAnswer (run emptyDB ops9) = false ∧
    (run emptyDB ops9).questions =
      [{ id := 1, topic_id := 1, question_text := "Capital of France?"
         question_type := "multiple_choice", difficulty := 1
         correct_answer := some "Paris" }] := by
  exact ⟨by decide, by decide⟩

/-- C9, amended: question creation stores a null correct answer for every
non-open-ended type (dropping any supplied value), and an update that
supplies a correct_answer succeeds only when the question's type - after any
type change applied by the same request - is open_ended; but the invariant is
not preserved by every catalog operation, since an update may change an
open-ended question's type while keeping its stored answer. -/
theorem c9_amended_create_update :
    (∀ db qc db' q, create_question db qc = .ok (db', q) →
        qc.question_type ≠ "open_ended" →
        q.question_type = qc.question_type ∧ q.correct_answer = none) ∧
    (∀ db qid qu db' q', update_question db qid qu = .ok (db', q') →
        qu.correct_answer.isSome = true → q'.question_type = "open_ended") := by
  constructor
  · intro db qc db' q h hne
    unfold create_question at h
    split at h
    · cases h
    · split at h
      · cases h
      · split at h
        · cases h
        · cases h
          refine ⟨rfl, ?_⟩
          have hbeq : (qc.question_type == "open_ended") = false := beq_eq_false_iff_ne.mpr hne
          simp [hbeq]
  · intro db qid qu db' q' h hsome
    unfold update_question at h
    split at h
    · cases h
    · split at h
      · cases h
      · split at h
        · cases h
        · split at h
          · cases h
          · split at h
            · cases h
            · rename_i q5 hans
              cases h
              unfold apply_answer_update at hans
              simp only [hsome, eq_self_iff_true, if_true] at hans
              split at hans
              · rename_i htype
                cases hans
                exact eq_of_beq htype
              · cases hans

def c9db1 : DB := run emptyDB [.createTopic ⟨"T2", none⟩ 0]

def qcmc : QuestionCreate :=
  { topic_id := 1, question_text := "Q", question_type := "multiple_choice"
    difficulty := 3, correct_answer := some "sneaky" }

def q9 : Question :=
  { id := 1, topic_id := 1, question_text := "Q", question_type := "multiple_choice"
    difficulty := 3, correct_answer := none }

def db9a : DB := { c9db1 with questions := [q9], next_question_id := 2 }

def c9db2 : DB :=
  run emptyDB [.createTopic ⟨"T3", none⟩ 0,
               .createQuestion ⟨1, "Q", "open_ended", 2, some "x"⟩]

def qu9 : QuestionUpdate :=
  { topic_id := none, question_text := none, question_type := none
    difficulty := none, correct_answer := some "y" }

def q9b : Question :=
  { id := 1, topic_id := 1, question_text := "Q", question_type := "open_ended"
    difficulty := 2, correct_answer := some "y" }

def db9b : DB := replaceQuestion c9db2 1 q9b

/-- C9, witness: a multiple-choice creation that supplies a correct answer
stores null, and an update that supplies a correct answer succeeds on an
open-ended question. -/
theorem c9_amended_create_update_witness :
    (q9.question_type = "multiple_choice" ∧ q9.correct_answer = none) ∧
    q9b.question_type = "open_ended" :=
  ⟨c9_amended_create_update.1 c9db1 qcmc db9a q9 rfl (by decide),
   c9_amended_create_update.2 c9db2 1 qu9 db9b q9b rfl rfl⟩

end CodeSchool
